import Mathlib

/-!
Verification of the entity-extraction / content-auditing pipeline
implemented in `src/app.py`.

The Python source is shallowly embedded: Python `str` values are Lean
`String`s (character-level operations go through `List Char`), Python
floats carrying salience scores are modelled as `ℚ`, and the external
collaborators (HTTP fetch + BeautifulSoup text extraction, the Google NLP
entity-extraction call, the Gemini structured-generation call) are
injected as explicit arguments, with their failure modes (`raise`)
represented by explicit outcome types.
-/

/-! ### Python string primitives -/

/-- Boolean test that `pat` is a prefix of `l` (character lists). -/
def listIsPre (pat l : List Char) : Bool :=
  match pat, l with
  | [], _ => true
  | _ :: _, [] => false
  | a :: as, b :: bs => a == b && listIsPre as bs

/-- Boolean test that `pat` occurs as a contiguous substring of `l`;
models the Python expression `pat in text` on strings. -/
def listContainsSub (pat : List Char) : List Char → Bool
  | [] => listIsPre pat []
  | c :: rest => listIsPre pat (c :: rest) || listContainsSub pat rest

/-- Models Python `s.startswith(pat)`. -/
def pyStartsWith (s pat : String) : Bool :=
  listIsPre pat.toList s.toList

/-- Models the Python membership test `"ERROR" in text` used by the
batch loop to classify a scraped string as a failure. -/
def containsERROR (s : String) : Bool :=
  listContainsSub "ERROR".toList s.toList

/-- Models Python `s.strip()`: removes leading and trailing whitespace. -/
def pyStrip (s : String) : String :=
  String.mk ((((s.toList.dropWhile Char.isWhitespace).reverse.dropWhile
    Char.isWhitespace).reverse))

/-- Models Python slicing `s[:n]`: the first `n` characters of `s`. -/
def pyTruncate (s : String) (n : Nat) : String :=
  String.mk (s.toList.take n)

/-- Index of the first occurrence of `sep` as a substring, if any. -/
def findIdxSub (sep : List Char) : List Char → Option Nat
  | [] => if listIsPre sep [] then some 0 else none
  | c :: rest =>
      if listIsPre sep (c :: rest) then some 0
      else (findIdxSub sep rest).map (· + 1)

/-- Fuelled splitter on a non-empty separator; `fuel` bounds the number of
splits so the recursion is structural. -/
def pySplitFuel (sep : List Char) : Nat → List Char → List (List Char)
  | 0, l => [l]
  | Nat.succ fuel, l =>
      match findIdxSub sep l with
      | none => [l]
      | some i => l.take i :: pySplitFuel sep fuel (l.drop (i + sep.length))

/-- Models Python `s.split(sep)` for a non-empty separator `sep`. -/
def pySplit (sep : String) (s : String) : List String :=
  (pySplitFuel sep.toList (s.toList.length + 1) s.toList).map String.mk

/-! ### `scrape_body_text` (src/app.py lines 71-109) -/

/-- Outcome of the HTTP fetch plus BeautifulSoup text extraction inside
`scrape_body_text`. `exception` stands for any raised exception in the
`try` block; `response` carries the status code and the visible text that
`soup.get_text(separator=chr 32)` would yield after the non-content
elements were removed (the DOM handling itself is an external
collaborator). -/
inductive FetchOutcome where
  | exception (msg : String)
  | response (status : Nat) (bodyText : String)

/-- The whitespace cleanup in `scrape_body_text`:
`lines = (line.strip() for line in text.splitlines())`,
`chunks = (phrase.strip() for line in lines for phrase in line.split("  "))`,
joined by single spaces keeping only non-empty chunks.  Here
`splitlines` is modelled as splitting on the newline character. -/
def cleanWhitespace (t : String) : String :=
  let lines := (pySplit "\n" t).map pyStrip
  let chunks := ((lines.map (pySplit "  ")).flatten).map pyStrip
  String.intercalate " " (chunks.filter (fun c => c ≠ ""))

/-- Embedding of `scrape_body_text` (src/app.py lines 71-109), as a
function of the fetch outcome: a 403 or non-200 status or a raised
exception yields an ERROR-prefixed sentinel string, otherwise the cleaned
visible text truncated to 8000 characters is returned. -/
def scrape_body_text : FetchOutcome → String
  | .exception e => "ERROR: " ++ e
  | .response status body =>
      if status = 403 then
        "ERROR: Access Denied (403). The website likely blocked the scraper."
      else if status ≠ 200 then
        "ERROR: Status Code " ++ toString status
      else
        pyTruncate (cleanWhitespace body) 8000

/-! ### `analyze_entities` (src/app.py lines 111-136) -/

/-- One entity returned by the external NLP extraction call:
a surface name and a salience score (Python float, modelled as `ℚ`). -/
structure RawEntity where
  name : String
  salience : ℚ
deriving DecidableEq, Repr

/-- The main-entity dictionary built by `analyze_entities`. -/
structure MainEntity where
  name : String
  score : ℚ
deriving DecidableEq, Repr

/-- Outcome of the external `nlp_client.analyze_entities` call:
either the returned entity list or a raised exception. -/
inductive ExtractOutcome where
  | ok (entities : List RawEntity)
  | error (msg : String)

/-- One insertion step of a stable descending insertion sort on salience:
on a tie the inserted element (earlier in the original input, since the
sort folds from the right) is placed first. -/
def insertDesc (x : RawEntity) : List RawEntity → List RawEntity
  | [] => [x]
  | h :: t =>
      if h.salience ≤ x.salience then x :: h :: t
      else h :: insertDesc x t

/-- Stable sort of the entity list by salience, descending; embeds
`sorted(response.entities, key=lambda x: x.salience, reverse=True)`
(Python `sorted` is stable, and `reverse=True` keeps equal-key elements
in input order, which this insertion sort also does). -/
def sortEntitiesDesc (l : List RawEntity) : List RawEntity :=
  l.foldr insertDesc []

/-- Embedding of `analyze_entities` (src/app.py lines 111-136) as a
function of the extraction outcome: any exception, like an empty entity
list, yields `(none, [])`; otherwise the top-salience entity becomes the
main entity and the names at sorted positions 1 through 5 (the Python
slice `sorted_entities[1:6]`) become the sub-entity names. -/
def analyze_entities : ExtractOutcome → Option MainEntity × List String
  | .error _ => (none, [])
  | .ok entities =>
      match sortEntitiesDesc entities with
      | [] => (none, [])
      | top :: rest => (some ⟨top.name, top.salience⟩, (rest.take 5).map (fun e => e.name))

/-! ### `llm_audit_gemini` (src/app.py lines 138-172) -/

/-- The dictionary parsed from the Gemini JSON response; `Option` fields
model Python `dict.get`, which yields `None` for a missing key. -/
structure AuditDict where
  verdict : Option String
  reasoning : Option String
  recommendation : Option String
deriving DecidableEq, Repr

/-- Embedding of the `try`/`except` of `llm_audit_gemini` (src/app.py
lines 162-172): `callResult` is the composite outcome of the
`generate_content` call followed by `json.loads`; any exception (network
failure or unparseable content) is recovered into the literal dictionary
with verdict `Error`, the exception text as reasoning, and the fixed
recommendation `Check API`. -/
def llm_audit_gemini (callResult : Except String AuditDict) : AuditDict :=
  match callResult with
  | .ok d => d
  | .error e => ⟨some "Error", some e, some "Check API"⟩

/-! ### Score formatting -/

/-- The decimal digit character for `d < 10`. -/
def digitChar (d : Nat) : Char :=
  Char.ofNat (48 + d)

/-- Exactly two decimal digit characters rendering `r % 100`. -/
def twoDigits (r : Nat) : String :=
  String.mk [digitChar (r / 10 % 10), digitChar (r % 10)]

/-- Models the Python format specifier `.2f` applied to the rational score
value: the value rounded to the nearest hundredth (halves up), rendered
with an integer part and exactly two fractional digits. -/
def format2f (q : ℚ) : String :=
  let n : Int := ⌊q * 100 + 1 / 2⌋
  (if n < 0 then "-" else "") ++ toString (n.natAbs / 100) ++ "." ++ twoDigits (n.natAbs % 100)

/-! ### The Run Audit batch loop (src/app.py lines 192-244) -/

/-- One row appended to `results` by the batch loop.  The Python rows are
dictionaries whose key sets differ between the degraded branches and the
success branch; a key absent from a row is `none` here.  Field names map
the Python keys `URL`, `Status`, `Main Entity`, `Salience`,
`Sub Entities`, `Verdict`, `Reasoning`, `Action`. -/
structure ResultRecord where
  url : String
  status : Option String
  main_entity : Option String
  salience : Option String
  sub_entities : Option String
  verdict : Option String
  reasoning : Option String
  action : Option String
deriving DecidableEq, Repr

/-- The row appended when `not text or "ERROR" in text` holds
(src/app.py line 220). -/
def scrapeBlockedRecord (u text : String) : ResultRecord :=
  { url := u, status := some "Scrape Blocked", main_entity := none,
    salience := none, sub_entities := none, verdict := some "Fail",
    reasoning := some text, action := some "Check Headers" }

/-- The row appended when `analyze_entities` returns no main entity
(src/app.py line 226). -/
def noEntitiesRecord (u : String) : ResultRecord :=
  { url := u, status := some "No Entities Found", main_entity := none,
    salience := none, sub_entities := none, verdict := some "Fail",
    reasoning := some "Google NLP found no topics. Text might be too short or blocked.",
    action := some "Review Scraped Text" }

/-- The row appended on the success path (src/app.py lines 232-240):
the bare main-entity name, the salience formatted to two decimals as a
separate field, the sub-entity names joined by a comma and a space, and
the three fields fetched from the audit dictionary with `.get`. -/
def successRecord (u : String) (m : MainEntity) (subs : List String)
    (audit : AuditDict) : ResultRecord :=
  { url := u, status := none, main_entity := some m.name,
    salience := some (format2f m.score),
    sub_entities := some (String.intercalate ", " subs),
    verdict := audit.verdict, reasoning := audit.reasoning,
    action := audit.recommendation }

/-- Embedding of the Run Audit batch loop (src/app.py lines 196-244) over
the list of lines obtained from the URL text area.  The three external
effects are injected: `scrape` stands for `scrape_body_text` (already a
total function returning either content or an ERROR-sentinel string),
`extract` for the NLP extraction call consumed by `analyze_entities`, and
`auditCall` for the Gemini-call-plus-JSON-parse consumed by
`llm_audit_gemini`.  Each line is stripped; an empty stripped line is
skipped with `continue`; otherwise exactly one row is appended, chosen by
the scrape check, the main-entity check, and the audit. -/
def run_batch (scrape : String → String) (extract : String → ExtractOutcome)
    (auditCall : String → MainEntity → List String → Except String AuditDict) :
    List String → List ResultRecord
  | [] => []
  | url :: rest =>
      let u := pyStrip url
      if u = "" then run_batch scrape extract auditCall rest
      else
        let text := scrape u
        if text = "" ∨ containsERROR text = true then
          scrapeBlockedRecord u text :: run_batch scrape extract auditCall rest
        else
          match analyze_entities (extract text) with
          | (none, _) => noEntitiesRecord u :: run_batch scrape extract auditCall rest
          | (some m, subs) =>
              successRecord u m subs (llm_audit_gemini (auditCall u m subs)) ::
                run_batch scrape extract auditCall rest

/-! ### The Entity Deduplicator (spec section 4.2)

`src/app.py` contains no deduplication step: `analyze_entities` feeds the
raw extraction output straight into sorting.  The spec describes the
Deduplicator as a component of the repository ("several source variants
reimplement it identically") whose code is not among the provided source
files, so it is modelled here from the spec's own algorithm. -/

/-- Modelled from the spec: the `CanonicalKey` of an entity name — the
lowercased name with one trailing letter s removed if present, except
that the s is kept when it is the only character (the key must not become
empty).  The Deduplicator code this models is absent from src/. -/
def canonical_key (name : String) : String :=
  let lower := String.mk (name.toList.map Char.toLower)
  match lower.toList.reverse with
  | [] => lower
  | [_] => lower
  | c :: restRev => if c = 's' then String.mk restRev.reverse else lower

/-- Modelled from the spec: a merged entity — best-cased display name and
the summed salience of all raw entities sharing its canonical key. -/
structure MergedEntity where
  name : String
  score : ℚ
deriving DecidableEq, Repr

/-- Whether a name starts with an uppercase letter (the display-name
preference used by the Deduplicator). -/
def startsUpper (s : String) : Bool :=
  match s.toList with
  | [] => false
  | c :: _ => c.isUpper

/-- Modelled from the spec: one Deduplicator step — fold `r` into the
key-ordered ledger: a new canonical key is appended at the end
(first-insertion order); an existing key has `r`'s salience added to its
score, and its display name replaced by `r.name` when `r.name` starts
with an uppercase letter and the stored name does not. -/
def addRaw (r : RawEntity) : List (String × MergedEntity) → List (String × MergedEntity)
  | [] => [(canonical_key r.name, ⟨r.name, r.salience⟩)]
  | (k, m) :: rest =>
      if k = canonical_key r.name then
        (k, ⟨if startsUpper r.name && !startsUpper m.name then r.name else m.name,
             m.score + r.salience⟩) :: rest
      else (k, m) :: addRaw r rest

/-- Modelled from the spec: the Deduplicator's internal ledger after
folding the whole raw entity list, in first-insertion key order. -/
def dedupLedger (raw : List RawEntity) : List (String × MergedEntity) :=
  raw.foldl (fun acc r => addRaw r acc) []

/-- Modelled from the spec: `deduplicate` — the merged entities in
first-insertion order of their canonical keys. -/
def deduplicate (raw : List RawEntity) : List MergedEntity :=
  (dedupLedger raw).map Prod.snd

/-! ### Lemmas about the stable descending sort -/

lemma perm_insertDesc (x : RawEntity) (t : List RawEntity) :
    (insertDesc x t).Perm (x :: t) := by
  induction t with
  | nil => exact List.Perm.refl _
  | cons h t ih =>
      rw [insertDesc]
      by_cases hc : h.salience ≤ x.salience
      · rw [if_pos hc]
      · rw [if_neg hc]
        exact (ih.cons h).trans (List.Perm.swap x h t)

lemma perm_sortEntitiesDesc (l : List RawEntity) : (sortEntitiesDesc l).Perm l := by
  induction l with
  | nil => exact List.Perm.refl _
  | cons a l ih =>
      have : sortEntitiesDesc (a :: l) = insertDesc a (sortEntitiesDesc l) := rfl
      rw [this]
      exact (perm_insertDesc a (sortEntitiesDesc l)).trans (ih.cons a)

lemma pairwise_insertDesc (x : RawEntity) (t : List RawEntity)
    (hp : t.Pairwise (fun a b => b.salience ≤ a.salience)) :
    (insertDesc x t).Pairwise (fun a b => b.salience ≤ a.salience) := by
  induction t with
  | nil => simp [insertDesc]
  | cons h t ih =>
      rw [insertDesc]
      rcases List.pairwise_cons.mp hp with ⟨h1, h2⟩
      by_cases hc : h.salience ≤ x.salience
      · rw [if_pos hc]
        refine List.pairwise_cons.mpr ⟨?_, hp⟩
        intro b hb
        rcases List.mem_cons.mp hb with hb | hb
        · exact hb ▸ hc
        · exact le_trans (h1 b hb) hc
      · rw [if_neg hc]
        refine List.pairwise_cons.mpr ⟨?_, ih h2⟩
        intro b hb
        have hb2 := (perm_insertDesc x t).mem_iff.mp hb
        rcases List.mem_cons.mp hb2 with hb2 | hb2
        · exact hb2 ▸ le_of_lt (lt_of_not_le hc)
        · exact h1 b hb2

lemma pairwise_sortEntitiesDesc (l : List RawEntity) :
    (sortEntitiesDesc l).Pairwise (fun a b => b.salience ≤ a.salience) := by
  induction l with
  | nil => simp [sortEntitiesDesc]
  | cons a l ih => exact pairwise_insertDesc a (sortEntitiesDesc l) ih

lemma filter_insertDesc_ne (q : ℚ) (x : RawEntity) (t : List RawEntity)
    (hx : x.salience ≠ q) :
    (insertDesc x t).filter (fun e => decide (e.salience = q)) =
      t.filter (fun e => decide (e.salience = q)) := by
  induction t with
  | nil => simp [insertDesc, hx]
  | cons h t ih =>
      rw [insertDesc]
      by_cases hc : h.salience ≤ x.salience
      · rw [if_pos hc]
        simp [List.filter_cons, hx]
      · rw [if_neg hc]
        simp [List.filter_cons, ih]

lemma filter_insertDesc_eq (q : ℚ) (x : RawEntity) (t : List RawEntity)
    (hx : x.salience = q)
    (hp : t.Pairwise (fun a b => b.salience ≤ a.salience)) :
    (insertDesc x t).filter (fun e => decide (e.salience = q)) =
      x :: t.filter (fun e => decide (e.salience = q)) := by
  induction t with
  | nil => simp [insertDesc, hx]
  | cons h t ih =>
      rw [insertDesc]
      by_cases hc : h.salience ≤ x.salience
      · rw [if_pos hc]
        simp [List.filter_cons, hx]
      · rw [if_neg hc]
        have hh : h.salience ≠ q := by
          intro he
          exact hc (le_of_eq (hx ▸ he))
        simp [List.filter_cons, hh, ih (List.Pairwise.of_cons hp)]

lemma filter_sortEntitiesDesc (q : ℚ) (l : List RawEntity) :
    (sortEntitiesDesc l).filter (fun e => decide (e.salience = q)) =
      l.filter (fun e => decide (e.salience = q)) := by
  induction l with
  | nil => rfl
  | cons a l ih =>
      have hstep : sortEntitiesDesc (a :: l) = insertDesc a (sortEntitiesDesc l) := rfl
      rw [hstep]
      by_cases ha : a.salience = q
      · rw [filter_insertDesc_eq q a _ ha (pairwise_sortEntitiesDesc l), ih]
        simp [List.filter_cons, ha]
      · rw [filter_insertDesc_ne q a _ ha, ih]
        simp [List.filter_cons, ha]

lemma sorted_head_max (l : List RawEntity) (top : RawEntity) (rest : List RawEntity)
    (h : sortEntitiesDesc l = top :: rest) :
    ∀ e ∈ l, e.salience ≤ top.salience := by
  intro e he
  have hmem : e ∈ sortEntitiesDesc l := (perm_sortEntitiesDesc l).mem_iff.mpr he
  rw [h] at hmem
  rcases List.mem_cons.mp hmem with hmem | hmem
  · exact le_of_eq (congrArg RawEntity.salience hmem)
  · have hp := pairwise_sortEntitiesDesc l
    rw [h] at hp
    exact (List.pairwise_cons.mp hp).1 e hmem

/-! ### Lemmas about the Deduplicator -/

lemma scoreSum_addRaw (r : RawEntity) (acc : List (String × MergedEntity)) :
    ((addRaw r acc).map (fun p => p.2.score)).sum =
      (acc.map (fun p => p.2.score)).sum + r.salience := by
  induction acc with
  | nil => simp [addRaw]
  | cons hd tl ih =>
      rcases hd with ⟨k, m⟩
      rw [addRaw]
      by_cases hk : k = canonical_key r.name
      · rw [if_pos hk]
        simp only [List.map_cons, List.sum_cons]
        ring
      · rw [if_neg hk]
        simp only [List.map_cons, List.sum_cons, ih]
        ring

lemma scoreSum_foldl (l : List RawEntity) :
    ∀ acc : List (String × MergedEntity),
      ((l.foldl (fun a r => addRaw r a) acc).map (fun p => p.2.score)).sum =
        (acc.map (fun p => p.2.score)).sum + (l.map (fun r => r.salience)).sum := by
  induction l with
  | nil => intro acc; simp
  | cons r l ih =>
      intro acc
      simp only [List.foldl_cons, List.map_cons, List.sum_cons]
      rw [ih (addRaw r acc), scoreSum_addRaw]
      ring

lemma keys_addRaw (r : RawEntity) (acc : List (String × MergedEntity)) :
    (addRaw r acc).map Prod.fst =
      if canonical_key r.name ∈ acc.map Prod.fst then acc.map Prod.fst
      else acc.map Prod.fst ++ [canonical_key r.name] := by
  induction acc with
  | nil => simp [addRaw]
  | cons hd tl ih =>
      rcases hd with ⟨k, m⟩
      rw [addRaw]
      by_cases hk : k = canonical_key r.name
      · rw [if_pos hk]
        simp [List.mem_cons, hk]
      · rw [if_neg hk]
        simp only [List.map_cons, ih, List.mem_cons]
        by_cases hmem : canonical_key r.name ∈ tl.map Prod.fst
        · simp [hmem]
        · simp [hmem, Ne.symm hk]

lemma nodup_keys_addRaw (r : RawEntity) (acc : List (String × MergedEntity))
    (h : (acc.map Prod.fst).Nodup) : ((addRaw r acc).map Prod.fst).Nodup := by
  rw [keys_addRaw]
  by_cases hmem : canonical_key r.name ∈ acc.map Prod.fst
  · rwa [if_pos hmem]
  · rw [if_neg hmem]
    simp [List.nodup_append, h, hmem]

lemma nodup_keys_foldl (l : List RawEntity) :
    ∀ acc : List (String × MergedEntity), (acc.map Prod.fst).Nodup →
      ((l.foldl (fun a r => addRaw r a) acc).map Prod.fst).Nodup := by
  induction l with
  | nil => intro acc h; simpa using h
  | cons r l ih =>
      intro acc h
      simp only [List.foldl_cons]
      exact ih (addRaw r acc) (nodup_keys_addRaw r acc h)

/-! ### Unfolding lemmas for the batch loop -/

lemma run_batch_nil (scrape : String → String) (extract : String → ExtractOutcome)
    (auditCall : String → MainEntity → List String → Except String AuditDict) :
    run_batch scrape extract auditCall [] = [] := rfl

lemma run_batch_cons_blank (scrape : String → String) (extract : String → ExtractOutcome)
    (auditCall : String → MainEntity → List String → Except String AuditDict)
    (url : String) (rest : List String) (h : pyStrip url = "") :
    run_batch scrape extract auditCall (url :: rest) =
      run_batch scrape extract auditCall rest := by
  simp only [run_batch]
  rw [if_pos h]

lemma run_batch_cons_fail (scrape : String → String) (extract : String → ExtractOutcome)
    (auditCall : String → MainEntity → List String → Except String AuditDict)
    (url : String) (rest : List String) (hu : pyStrip url ≠ "")
    (hf : scrape (pyStrip url) = "" ∨ containsERROR (scrape (pyStrip url)) = true) :
    run_batch scrape extract auditCall (url :: rest) =
      scrapeBlockedRecord (pyStrip url) (scrape (pyStrip url)) ::
        run_batch scrape extract auditCall rest := by
  simp only [run_batch]
  rw [if_neg hu, if_pos hf]

lemma run_batch_cons_noent (scrape : String → String) (extract : String → ExtractOutcome)
    (auditCall : String → MainEntity → List String → Except String AuditDict)
    (url : String) (rest : List String) (sl : List String) (hu : pyStrip url ≠ "")
    (hf : ¬(scrape (pyStrip url) = "" ∨ containsERROR (scrape (pyStrip url)) = true))
    (ha : analyze_entities (extract (scrape (pyStrip url))) = (none, sl)) :
    run_batch scrape extract auditCall (url :: rest) =
      noEntitiesRecord (pyStrip url) :: run_batch scrape extract auditCall rest := by
  simp only [run_batch]
  rw [if_neg hu, if_neg hf, ha]

lemma run_batch_cons_main (scrape : String → String) (extract : String → ExtractOutcome)
    (auditCall : String → MainEntity → List String → Except String AuditDict)
    (url : String) (rest : List String) (m : MainEntity) (subs : List String)
    (hu : pyStrip url ≠ "")
    (hf : ¬(scrape (pyStrip url) = "" ∨ containsERROR (scrape (pyStrip url)) = true))
    (ha : analyze_entities (extract (scrape (pyStrip url))) = (some m, subs)) :
    run_batch scrape extract auditCall (url :: rest) =
      successRecord (pyStrip url) m subs
          (llm_audit_gemini (auditCall (pyStrip url) m subs)) ::
        run_batch scrape extract auditCall rest := by
  simp only [run_batch]
  rw [if_neg hu, if_neg hf, ha]

/-! ### Claim theorems -/

/-- C2: for every raw entity list, deduplication merges entities sharing a
canonical key (the ledger holds each canonical key at most once) and the
sum of all merged entity scores equals the sum of all raw salience values
(exact conservation; the modelling uses exact rationals, so the
floating-point tolerance of the claim collapses to equality). -/
theorem dedup_score_conservation (raw : List RawEntity) :
    ((deduplicate raw).map (fun m => m.score)).sum =
      (raw.map (fun r => r.salience)).sum
    ∧ ((dedupLedger raw).map Prod.fst).Nodup := by
  constructor
  · have h := scoreSum_foldl raw []
    simp only [List.map_nil, List.sum_nil, zero_add] at h
    calc ((deduplicate raw).map (fun m => m.score)).sum
        = ((dedupLedger raw).map (fun p => p.2.score)).sum := by
          simp [deduplicate, List.map_map]
          rfl
      _ = (raw.map (fun r => r.salience)).sum := h
  · exact nodup_keys_foldl raw [] (by simp)

/-- C5 (amended): the sub-entity list returned by `analyze_entities`
consists of the entities at ranks 1 through 5 of the score-descending
order — its length is `min 5 (n - 1)` for `n` input entities, hence at
most 5 (not 9), and it is empty exactly when fewer than 2 entities
exist. -/
theorem subs_rank_window (l : List RawEntity) :
    (analyze_entities (.ok l)).2.length = min 5 (l.length - 1)
    ∧ ((analyze_entities (.ok l)).2 = [] ↔ l.length < 2)
    ∧ (analyze_entities (.ok l)).2.length ≤ 5 := by
  have hlen : (sortEntitiesDesc l).length = l.length :=
    (perm_sortEntitiesDesc l).length_eq
  rcases hs : sortEntitiesDesc l with _ | ⟨top, rest⟩
  · have hl0 : l.length = 0 := by rw [← hlen, hs]; rfl
    refine ⟨?_, ?_, ?_⟩
    · simp [analyze_entities, hs, hl0]
    · simp [analyze_entities, hs, hl0]
    · simp [analyze_entities, hs]
  · have hl : l.length = rest.length + 1 := by
      rw [← hlen, hs, List.length_cons]
    refine ⟨?_, ?_, ?_⟩
    · simp [analyze_entities, hs, hl]
    · simp only [analyze_entities, hs, hl]
      constructor
      · intro hnil
        have : rest.take 5 = [] := List.map_eq_nil_iff.mp hnil
        have h5 : rest = [] := by
          rcases (List.take_eq_nil_iff).mp this with h | h
          · exact absurd h (by decide)
          · exact h
        simp [h5]
      · intro hlt
        have : rest.length = 0 := by omega
        have h5 : rest = [] := List.length_eq_zero.mp this
        simp [h5]
    · simp [analyze_entities, hs, List.length_take]

/-- C5 counterexample: ten entities with pairwise distinct descending
scores yield exactly five sub-entities, not the nine the claim states. -/
theorem subs_rank_window_counterexample :
    ([(⟨"e1", 10/20⟩ : RawEntity), ⟨"e2", 9/20⟩, ⟨"e3", 8/20⟩, ⟨"e4", 7/20⟩,
      ⟨"e5", 6/20⟩, ⟨"e6", 5/20⟩, ⟨"e7", 4/20⟩, ⟨"e8", 3/20⟩, ⟨"e9", 2/20⟩,
      ⟨"e10", 1/20⟩] : List RawEntity).length = 10
    ∧ (analyze_entities (.ok
        [⟨"e1", 10/20⟩, ⟨"e2", 9/20⟩, ⟨"e3", 8/20⟩, ⟨"e4", 7/20⟩,
         ⟨"e5", 6/20⟩, ⟨"e6", 5/20⟩, ⟨"e7", 4/20⟩, ⟨"e8", 3/20⟩,
         ⟨"e9", 2/20⟩, ⟨"e10", 1/20⟩])).2 = ["e2", "e3", "e4", "e5", "e6"]
    ∧ (analyze_entities (.ok
        [⟨"e1", 10/20⟩, ⟨"e2", 9/20⟩, ⟨"e3", 8/20⟩, ⟨"e4", 7/20⟩,
         ⟨"e5", 6/20⟩, ⟨"e6", 5/20⟩, ⟨"e7", 4/20⟩, ⟨"e8", 3/20⟩,
         ⟨"e9", 2/20⟩, ⟨"e10", 1/20⟩])).2.length ≠ 9 := by
  with_unfolding_all decide

/-- C6: ranking sorts descending by score with ties preserving input
order (the sorted list is pairwise descending and, for any fixed score,
keeps exactly the input's equal-score subsequence), the rank-0 element
becomes the main entity, whose score bounds every input entity's score —
in particular every sub-entity's — and empty input yields no main
entity. -/
theorem rank_main_top (l : List RawEntity) (top : RawEntity)
    (rest : List RawEntity) (q : ℚ)
    (h : sortEntitiesDesc l = top :: rest) :
    (analyze_entities (.ok l)).1 = some ⟨top.name, top.salience⟩
    ∧ (∀ e ∈ l, e.salience ≤ top.salience)
    ∧ (∀ e ∈ rest.take 5, e.salience ≤ top.salience)
    ∧ (sortEntitiesDesc l).Pairwise (fun a b => b.salience ≤ a.salience)
    ∧ (sortEntitiesDesc l).filter (fun e => decide (e.salience = q)) =
        l.filter (fun e => decide (e.salience = q))
    ∧ (analyze_entities (.ok [])).1 = none := by
  refine ⟨?_, sorted_head_max l top rest h, ?_, pairwise_sortEntitiesDesc l,
    filter_sortEntitiesDesc q l, rfl⟩
  · simp [analyze_entities, h]
  · intro e he
    have hmem : e ∈ rest := List.take_subset 5 rest he
    have hp := pairwise_sortEntitiesDesc l
    rw [h] at hp
    exact (List.pairwise_cons.mp hp).1 e hmem

/-- C6 witness: the theorem applied to a concrete three-entity list with
a salience tie between the first and third entities. -/
theorem rank_main_top_witness :
    sortEntitiesDesc [⟨"a", 1/4⟩, ⟨"b", 1/2⟩, ⟨"c", 1/4⟩] =
      (⟨"b", 1/2⟩ : RawEntity) :: [⟨"a", 1/4⟩, ⟨"c", 1/4⟩]
    ∧ ((analyze_entities (.ok [⟨"a", 1/4⟩, ⟨"b", 1/2⟩, ⟨"c", 1/4⟩])).1 =
          some ⟨"b", 1/2⟩
      ∧ (∀ e ∈ ([⟨"a", 1/4⟩, ⟨"b", 1/2⟩, ⟨"c", 1/4⟩] : List RawEntity),
          e.salience ≤ (⟨"b", (1:ℚ)/2⟩ : RawEntity).salience)
      ∧ (∀ e ∈ ([⟨"a", 1/4⟩, ⟨"c", 1/4⟩] : List RawEntity).take 5,
          e.salience ≤ (⟨"b", (1:ℚ)/2⟩ : RawEntity).salience)
      ∧ (sortEntitiesDesc [⟨"a", 1/4⟩, ⟨"b", 1/2⟩, ⟨"c", 1/4⟩]).Pairwise
          (fun a b => b.salience ≤ a.salience)
      ∧ (sortEntitiesDesc [⟨"a", 1/4⟩, ⟨"b", 1/2⟩, ⟨"c", 1/4⟩]).filter
            (fun e => decide (e.salience = (1:ℚ)/4)) =
          ([⟨"a", 1/4⟩, ⟨"b", 1/2⟩, ⟨"c", 1/4⟩] : List RawEntity).filter
            (fun e => decide (e.salience = (1:ℚ)/4))
      ∧ (analyze_entities (.ok [])).1 = none) :=
  ⟨by with_unfolding_all decide,
   rank_main_top [⟨"a", 1/4⟩, ⟨"b", 1/2⟩, ⟨"c", 1/4⟩] ⟨"b", 1/2⟩
     [⟨"a", 1/4⟩, ⟨"c", 1/4⟩] ((1:ℚ)/4) (by with_unfolding_all decide)⟩

lemma listIsPre_append (p m : List Char) : listIsPre p (p ++ m) = true := by
  induction p with
  | nil => rfl
  | cons c cs ih => simp [listIsPre, ih]

lemma pyStartsWith_append (p rest : String) : pyStartsWith (p ++ rest) p = true := by
  unfold pyStartsWith
  have h : (p ++ rest).toList = p.toList ++ rest.toList := String.data_append p rest
  rw [h]
  exact listIsPre_append p.toList rest.toList

lemma pyTruncate_length (s : String) (n : Nat) : (pyTruncate s n).length ≤ n := by
  have h : (pyTruncate s n).length = (s.toList.take n).length := rfl
  rw [h, List.length_take]
  exact min_le_left n s.toList.length

/-- C9: every return value of `scrape_body_text` that does not begin with
the literal token ERROR has length at most 8000 characters: the cleaned
page text is truncated to 8000 characters before the orchestrator hands
it to entity extraction, and every failure return carries the ERROR
token up front. -/
theorem scrape_result_bounded (fo : FetchOutcome)
    (h : pyStartsWith (scrape_body_text fo) "ERROR" = false) :
    (scrape_body_text fo).length ≤ 8000 := by
  cases fo with
  | exception e =>
      exfalso
      have hsplit : ("ERROR: " ++ e) = "ERROR" ++ (": " ++ e) := by
        rw [show ("ERROR: " : String) = "ERROR" ++ ": " from by decide,
          String.append_assoc]
      rw [scrape_body_text, hsplit, pyStartsWith_append] at h
      exact Bool.noConfusion h
  | response status body =>
      rw [scrape_body_text] at h ⊢
      by_cases h403 : status = 403
      · exfalso
        rw [if_pos h403] at h
        exact absurd h (by decide)
      · rw [if_neg h403] at h ⊢
        by_cases h200 : status = 200
        · have hne : ¬(status ≠ 200) := fun hn => hn h200
          rw [if_neg hne]
          exact pyTruncate_length (cleanWhitespace body) 8000
        · exfalso
          have hsplit : ("ERROR: Status Code " ++ toString status) =
              "ERROR" ++ (": Status Code " ++ toString status) := by
            rw [show ("ERROR: Status Code " : String) = "ERROR" ++ ": Status Code "
              from by decide, String.append_assoc]
          rw [if_pos h200, hsplit, pyStartsWith_append] at h
          exact Bool.noConfusion h

/-- C9 witness: the theorem applied to a successful 200 response with a
short body. -/
theorem scrape_result_bounded_witness :
    pyStartsWith (scrape_body_text (.response 200 "brief page body")) "ERROR" = false
    ∧ (scrape_body_text (.response 200 "brief page body")).length ≤ 8000 :=
  ⟨by decide, scrape_result_bounded (.response 200 "brief page body") (by decide)⟩

/-- C1 (amended): for every batch whose items are non-blank after
stripping, the loop produces exactly one record per item, in input order
(the i-th record's URL is the i-th stripped item), for arbitrary
outcomes of the scrape, the extraction, and the audit call — so a
failure at any stage for one item never drops that item's record or
aborts the batch.  Blank items, however, are skipped without a record. -/
theorem batch_cardinality (scrape : String → String)
    (extract : String → ExtractOutcome)
    (auditCall : String → MainEntity → List String → Except String AuditDict)
    (urls : List String) (h : ∀ u ∈ urls, pyStrip u ≠ "") :
    (run_batch scrape extract auditCall urls).map (fun r => r.url) =
      urls.map pyStrip
    ∧ (run_batch scrape extract auditCall urls).length = urls.length := by
  have hmap : (run_batch scrape extract auditCall urls).map (fun r => r.url) =
      urls.map pyStrip := by
    induction urls with
    | nil => simp [run_batch]
    | cons url rest ih =>
        have hu : pyStrip url ≠ "" := h url (List.mem_cons_self url rest)
        have hrest : ∀ u ∈ rest, pyStrip u ≠ "" :=
          fun u hm => h u (List.mem_cons_of_mem url hm)
        have ihr := ih hrest
        by_cases hf : scrape (pyStrip url) = "" ∨
            containsERROR (scrape (pyStrip url)) = true
        · rw [run_batch_cons_fail scrape extract auditCall url rest hu hf]
          simp [scrapeBlockedRecord, ihr]
        · rcases hae : analyze_entities (extract (scrape (pyStrip url))) with ⟨mo, sl⟩
          cases mo with
          | none =>
              rw [run_batch_cons_noent scrape extract auditCall url rest sl hu hf hae]
              simp [noEntitiesRecord, ihr]
          | some m =>
              rw [run_batch_cons_main scrape extract auditCall url rest m sl hu hf hae]
              simp [successRecord, ihr]
  refine ⟨hmap, ?_⟩
  have hlen := congrArg List.length hmap
  simpa using hlen

/-- C1 counterexample: a batch containing one item (a whitespace-only
line) produces zero records, not one — the claim's exact-cardinality
statement fails on blank items. -/
theorem batch_cardinality_counterexample :
    run_batch (fun _ => "some page text") (fun _ => .ok [])
      (fun _ _ _ => .error "e") [" "] = []
    ∧ [" "].length = 1 := by
  decide

/-- C1 witness: the cardinality theorem applied to a concrete two-item
batch in which the first item fails at the scrape stage and the second
fails at the audit stage; both still yield records, in order. -/
theorem batch_cardinality_witness :
    (∀ u ∈ ([" a ", "b"] : List String), pyStrip u ≠ "")
    ∧ ((run_batch (fun u => if u = "a" then "ERROR: blocked" else "page text")
          (fun _ => .ok [⟨"Topic", 1/2⟩]) (fun _ _ _ => .error "boom")
          [" a ", "b"]).map (fun r => r.url) = ([" a ", "b"] : List String).map pyStrip
      ∧ (run_batch (fun u => if u = "a" then "ERROR: blocked" else "page text")
          (fun _ => .ok [⟨"Topic", 1/2⟩]) (fun _ _ _ => .error "boom")
          [" a ", "b"]).length = ([" a ", "b"] : List String).length) :=
  ⟨by decide,
   batch_cardinality (fun u => if u = "a" then "ERROR: blocked" else "page text")
     (fun _ => .ok [⟨"Topic", 1/2⟩]) (fun _ _ _ => .error "boom")
     [" a ", "b"] (by decide)⟩

/-- C4 (amended): the batch loop treats a fetched string as a failure
outcome if and only if the string is empty or contains the literal token
ERROR anywhere as a substring — not only when it begins with it.  (Every
failure string of `scrape_body_text` does begin with ERROR, but the
loop's test is substring containment of the whole fetched text.) -/
theorem scrape_failure_iff (scrape : String → String)
    (extract : String → ExtractOutcome)
    (auditCall : String → MainEntity → List String → Except String AuditDict)
    (url : String) (hu : pyStrip url ≠ "") :
    run_batch scrape extract auditCall [url] =
        [scrapeBlockedRecord (pyStrip url) (scrape (pyStrip url))]
      ↔ (scrape (pyStrip url) = "" ∨ containsERROR (scrape (pyStrip url)) = true) := by
  constructor
  · intro hrec
    by_contra hf
    rcases hae : analyze_entities (extract (scrape (pyStrip url))) with ⟨mo, sl⟩
    cases mo with
    | none =>
        rw [run_batch_cons_noent scrape extract auditCall url [] sl hu hf hae] at hrec
        have hhead := List.head_eq_of_cons_eq hrec
        have := congrArg ResultRecord.status hhead
        simp [noEntitiesRecord, scrapeBlockedRecord] at this
    | some m =>
        rw [run_batch_cons_main scrape extract auditCall url [] m sl hu hf hae] at hrec
        have hhead := List.head_eq_of_cons_eq hrec
        have := congrArg ResultRecord.status hhead
        simp [successRecord, scrapeBlockedRecord] at this
  · intro hf
    rw [run_batch_cons_fail scrape extract auditCall url [] hu hf]
    rfl

/-- C4 counterexample: a long fetched text that merely mentions the word
ERROR mid-string — it does not begin with the token — is nevertheless
treated as a failure outcome and never reaches extraction, refuting the
claim's only-if direction. -/
theorem scrape_failure_iff_counterexample :
    pyStartsWith
        "Customers reported the ERROR codes displayed on checkout pages last week"
        "ERROR" = false
    ∧ 50 ≤ ("Customers reported the ERROR codes displayed on checkout pages last week" : String).length
    ∧ run_batch
        (fun _ => "Customers reported the ERROR codes displayed on checkout pages last week")
        (fun _ => .ok [⟨"Alpha", 1/2⟩])
        (fun _ _ _ => .ok ⟨some "Pass", some "ok", some "act"⟩) ["u"] =
      [scrapeBlockedRecord "u"
        "Customers reported the ERROR codes displayed on checkout pages last week"] := by
  with_unfolding_all decide

/-- C4 witness: the failure-condition theorem applied to a URL whose
scrape returns an ERROR-prefixed sentinel string. -/
theorem scrape_failure_iff_witness :
    pyStrip "u" ≠ ""
    ∧ (run_batch (fun _ => "ERROR: Access Denied (403). The website likely blocked the scraper.")
          (fun _ => .ok []) (fun _ _ _ => .error "e") ["u"] =
        [scrapeBlockedRecord (pyStrip "u")
          ((fun _ => "ERROR: Access Denied (403). The website likely blocked the scraper.")
            (pyStrip "u"))]
      ↔ ((fun _ => "ERROR: Access Denied (403). The website likely blocked the scraper.")
            (pyStrip "u") = ("" : String)
        ∨ containsERROR
            ((fun _ => "ERROR: Access Denied (403). The website likely blocked the scraper.")
              (pyStrip "u")) = true)) :=
  ⟨by decide,
   scrape_failure_iff
     (fun _ => "ERROR: Access Denied (403). The website likely blocked the scraper.")
     (fun _ => .ok []) (fun _ _ _ => .error "e") "u" (by decide)⟩

/-- C3 (amended): the batch loop performs no minimum-length check.  Any
non-empty fetched text that does not contain the ERROR token proceeds to
entity extraction even when shorter than 50 characters, and when
extraction finds entities the item yields an ordinary success record —
there is no insufficient-text error path. -/
theorem no_length_gate (scrape : String → String)
    (extract : String → ExtractOutcome)
    (auditCall : String → MainEntity → List String → Except String AuditDict)
    (url : String) (m : MainEntity) (subs : List String) (d : AuditDict)
    (hu : pyStrip url ≠ "")
    (hok : ¬(scrape (pyStrip url) = "" ∨ containsERROR (scrape (pyStrip url)) = true))
    (_hshort : (scrape (pyStrip url)).length < 50)
    (ha : analyze_entities (extract (scrape (pyStrip url))) = (some m, subs))
    (hc : auditCall (pyStrip url) m subs = .ok d) :
    run_batch scrape extract auditCall [url] = [successRecord (pyStrip url) m subs d]
    ∧ (successRecord (pyStrip url) m subs d).status = none
    ∧ (successRecord (pyStrip url) m subs d).main_entity = some m.name := by
  refine ⟨?_, rfl, rfl⟩
  rw [run_batch_cons_main scrape extract auditCall url [] m subs hu hok ha, hc]
  rfl

/-- C3 counterexample: a cleaned text of exactly 49 characters is handed
to extraction and produces a success record carrying the extracted
entity — no insufficient-text error is recorded and extraction is
invoked (its output is visible in the record). -/
theorem no_length_gate_counterexample :
    ("this page text is exactly forty nine chars long!!" : String).length = 49
    ∧ run_batch (fun _ => "this page text is exactly forty nine chars long!!")
        (fun _ => .ok [⟨"Alpha", 1/2⟩])
        (fun _ _ _ => .ok ⟨some "Pass", some "ok", some "act"⟩) ["u"] =
      [{ url := "u", status := none, main_entity := some "Alpha",
         salience := some "0.50", sub_entities := some "",
         verdict := some "Pass", reasoning := some "ok", action := some "act" }] := by
  with_unfolding_all decide

/-- C3 witness: the no-length-gate theorem applied to the 49-character
text with a one-entity extraction result. -/
theorem no_length_gate_witness :
    (pyStrip "u" ≠ ""
      ∧ ¬((fun _ => "this page text is exactly forty nine chars long!!") (pyStrip "u") = ("" : String)
          ∨ containsERROR ((fun _ => "this page text is exactly forty nine chars long!!") (pyStrip "u")) = true)
      ∧ (((fun _ => "this page text is exactly forty nine chars long!!") (pyStrip "u") : String)).length < 50
      ∧ analyze_entities ((fun _ => ExtractOutcome.ok [⟨"Alpha", 1/2⟩])
          ((fun _ => "this page text is exactly forty nine chars long!!") (pyStrip "u"))) =
          (some ⟨"Alpha", 1/2⟩, [])
      ∧ (fun _ _ _ => (Except.ok (⟨some "Pass", some "ok", some "act"⟩ : AuditDict) :
            Except String AuditDict))
          (pyStrip "u") (⟨"Alpha", 1/2⟩ : MainEntity) ([] : List String) =
          (Except.ok (⟨some "Pass", some "ok", some "act"⟩ : AuditDict) :
            Except String AuditDict))
    ∧ (run_batch (fun _ => "this page text is exactly forty nine chars long!!")
          (fun _ => .ok [⟨"Alpha", 1/2⟩])
          (fun _ _ _ => .ok ⟨some "Pass", some "ok", some "act"⟩) ["u"] =
        [successRecord (pyStrip "u") ⟨"Alpha", 1/2⟩ [] ⟨some "Pass", some "ok", some "act"⟩]
      ∧ (successRecord (pyStrip "u") ⟨"Alpha", 1/2⟩ [] ⟨some "Pass", some "ok", some "act"⟩).status = none
      ∧ (successRecord (pyStrip "u") ⟨"Alpha", 1/2⟩ [] ⟨some "Pass", some "ok", some "act"⟩).main_entity =
          some (⟨"Alpha", (1:ℚ)/2⟩ : MainEntity).name) :=
  ⟨⟨by decide, by with_unfolding_all decide, by decide, by with_unfolding_all decide, rfl⟩,
   no_length_gate (fun _ => "this page text is exactly forty nine chars long!!")
     (fun _ => .ok [⟨"Alpha", 1/2⟩])
     (fun _ _ _ => .ok ⟨some "Pass", some "ok", some "act"⟩) "u"
     ⟨"Alpha", 1/2⟩ [] ⟨some "Pass", some "ok", some "act"⟩
     (by decide) (by with_unfolding_all decide) (by decide)
     (by with_unfolding_all decide) rfl⟩

/-- C7: whenever the audit call fails or returns unparseable content
(the composite call outcome is an error), the item's record carries the
sentinel verdict Error, the diagnostic message in the reasoning field,
the fixed recommendation, and the entity fields produced by ranking —
main entity name, formatted score, joined sub-entities — are still
populated. -/
theorem audit_failure_record (scrape : String → String)
    (extract : String → ExtractOutcome)
    (auditCall : String → MainEntity → List String → Except String AuditDict)
    (url emsg : String) (m : MainEntity) (subs : List String)
    (hu : pyStrip url ≠ "")
    (hok : ¬(scrape (pyStrip url) = "" ∨ containsERROR (scrape (pyStrip url)) = true))
    (ha : analyze_entities (extract (scrape (pyStrip url))) = (some m, subs))
    (hc : auditCall (pyStrip url) m subs = .error emsg) :
    run_batch scrape extract auditCall [url] =
      [{ url := pyStrip url, status := none, main_entity := some m.name,
         salience := some (format2f m.score),
         sub_entities := some (String.intercalate ", " subs),
         verdict := some "Error", reasoning := some emsg,
         action := some "Check API" }] := by
  rw [run_batch_cons_main scrape extract auditCall url [] m subs hu hok ha, hc]
  rfl

/-- C7 witness: the audit-failure theorem applied to a concrete item
whose extraction succeeds with two entities and whose audit call raises
with message boom. -/
theorem audit_failure_record_witness :
    (pyStrip "u" ≠ ""
      ∧ ¬((fun _ => "a plumbing services page with plenty of page text") (pyStrip "u") = ("" : String)
          ∨ containsERROR ((fun _ => "a plumbing services page with plenty of page text") (pyStrip "u")) = true)
      ∧ analyze_entities ((fun _ => ExtractOutcome.ok [⟨"Alpha", 1/2⟩, ⟨"Beta", 1/4⟩])
          ((fun _ => "a plumbing services page with plenty of page text") (pyStrip "u"))) =
          (some ⟨"Alpha", 1/2⟩, ["Beta"])
      ∧ (fun _ _ _ => (Except.error "boom" : Except String AuditDict))
          (pyStrip "u") (⟨"Alpha", 1/2⟩ : MainEntity) (["Beta"] : List String) =
          (Except.error "boom" : Except String AuditDict))
    ∧ run_batch (fun _ => "a plumbing services page with plenty of page text")
        (fun _ => .ok [⟨"Alpha", 1/2⟩, ⟨"Beta", 1/4⟩])
        (fun _ _ _ => .error "boom") ["u"] =
      [{ url := pyStrip "u", status := none,
         main_entity := some (⟨"Alpha", (1:ℚ)/2⟩ : MainEntity).name,
         salience := some (format2f (⟨"Alpha", (1:ℚ)/2⟩ : MainEntity).score),
         sub_entities := some (String.intercalate ", " ["Beta"]),
         verdict := some "Error", reasoning := some "boom",
         action := some "Check API" }] :=
  ⟨⟨by decide, by with_unfolding_all decide, by with_unfolding_all decide, rfl⟩,
   audit_failure_record (fun _ => "a plumbing services page with plenty of page text")
     (fun _ => .ok [⟨"Alpha", 1/2⟩, ⟨"Beta", 1/4⟩]) (fun _ _ _ => .error "boom")
     "u" "boom" ⟨"Alpha", 1/2⟩ ["Beta"]
     (by decide) (by with_unfolding_all decide) (by with_unfolding_all decide) rfl⟩

lemma format2f_two_decimals (q : ℚ) :
    ∃ pre suf : String, format2f q = pre ++ "." ++ suf ∧ suf.length = 2 := by
  refine ⟨(if (⌊q * 100 + 1 / 2⌋ : Int) < 0 then "-" else "") ++
      toString ((⌊q * 100 + 1 / 2⌋ : Int).natAbs / 100),
    twoDigits ((⌊q * 100 + 1 / 2⌋ : Int).natAbs % 100), ?_, rfl⟩
  rw [format2f]

/-- C8 (amended): in a successful record the main-entity name and its
two-decimal score live in separate fields — the main-entity field holds
the bare name, the salience field holds the score formatted with exactly
two digits after the decimal point — and the sub-entities are joined by
a comma and a space, in rank order, without scores. -/
theorem record_field_shapes (scrape : String → String)
    (extract : String → ExtractOutcome)
    (auditCall : String → MainEntity → List String → Except String AuditDict)
    (url : String) (m : MainEntity) (subs : List String) (d : AuditDict)
    (hu : pyStrip url ≠ "")
    (hok : ¬(scrape (pyStrip url) = "" ∨ containsERROR (scrape (pyStrip url)) = true))
    (ha : analyze_entities (extract (scrape (pyStrip url))) = (some m, subs))
    (hc : auditCall (pyStrip url) m subs = .ok d) :
    run_batch scrape extract auditCall [url] = [successRecord (pyStrip url) m subs d]
    ∧ (successRecord (pyStrip url) m subs d).main_entity = some m.name
    ∧ (successRecord (pyStrip url) m subs d).salience = some (format2f m.score)
    ∧ (successRecord (pyStrip url) m subs d).sub_entities =
        some (String.intercalate ", " subs)
    ∧ ∃ pre suf : String, format2f m.score = pre ++ "." ++ suf ∧ suf.length = 2 := by
  refine ⟨?_, rfl, rfl, rfl, format2f_two_decimals m.score⟩
  rw [run_batch_cons_main scrape extract auditCall url [] m subs hu hok ha, hc]
  rfl

/-- C8 counterexample: a concrete successful record holds the bare name
Alpha in the main-entity field and the score 0.50 in the separate
salience field, and joins sub-entities without scores — no field has the
claimed combined shape with the name and parenthesised score. -/
theorem record_field_shapes_counterexample :
    run_batch (fun _ => "a plumbing services page with plenty of page text")
        (fun _ => .ok [⟨"Alpha", 1/2⟩, ⟨"Beta", 1/4⟩])
        (fun _ _ _ => .ok ⟨some "Pass", some "ok", some "act"⟩) ["u"] =
      [{ url := "u", status := none, main_entity := some "Alpha",
         salience := some "0.50", sub_entities := some "Beta",
         verdict := some "Pass", reasoning := some "ok", action := some "act" }]
    ∧ (some "Alpha" : Option String) ≠ some "Alpha (0.50)"
    ∧ (some "Beta" : Option String) ≠ some "Beta (0.25)" := by
  with_unfolding_all decide

/-- C8 witness: the field-shape theorem applied to a concrete item with
main entity Alpha at score one half and one sub-entity. -/
theorem record_field_shapes_witness :
    (pyStrip "u" ≠ ""
      ∧ ¬((fun _ => "a page text about plumbing and heating work") (pyStrip "u") = ("" : String)
          ∨ containsERROR ((fun _ => "a page text about plumbing and heating work") (pyStrip "u")) = true)
      ∧ analyze_entities ((fun _ => ExtractOutcome.ok [⟨"Alpha", 1/2⟩, ⟨"Beta", 1/4⟩])
          ((fun _ => "a page text about plumbing and heating work") (pyStrip "u"))) =
          (some ⟨"Alpha", 1/2⟩, ["Beta"])
      ∧ (fun _ _ _ => (Except.ok (⟨some "Pass", some "ok", some "act"⟩ : AuditDict) :
            Except String AuditDict))
          (pyStrip "u") (⟨"Alpha", 1/2⟩ : MainEntity) (["Beta"] : List String) =
          (Except.ok (⟨some "Pass", some "ok", some "act"⟩ : AuditDict) :
            Except String AuditDict))
    ∧ (run_batch (fun _ => "a page text about plumbing and heating work")
          (fun _ => .ok [⟨"Alpha", 1/2⟩, ⟨"Beta", 1/4⟩])
          (fun _ _ _ => .ok ⟨some "Pass", some "ok", some "act"⟩) ["u"] =
        [successRecord (pyStrip "u") ⟨"Alpha", 1/2⟩ ["Beta"] ⟨some "Pass", some "ok", some "act"⟩]
      ∧ (successRecord (pyStrip "u") ⟨"Alpha", 1/2⟩ ["Beta"] ⟨some "Pass", some "ok", some "act"⟩).main_entity =
          some (⟨"Alpha", (1:ℚ)/2⟩ : MainEntity).name
      ∧ (successRecord (pyStrip "u") ⟨"Alpha", 1/2⟩ ["Beta"] ⟨some "Pass", some "ok", some "act"⟩).salience =
          some (format2f (⟨"Alpha", (1:ℚ)/2⟩ : MainEntity).score)
      ∧ (successRecord (pyStrip "u") ⟨"Alpha", 1/2⟩ ["Beta"] ⟨some "Pass", some "ok", some "act"⟩).sub_entities =
          some (String.intercalate ", " ["Beta"])
      ∧ ∃ pre suf : String,
          format2f (⟨"Alpha", (1:ℚ)/2⟩ : MainEntity).score = pre ++ "." ++ suf ∧ suf.length = 2) :=
  ⟨⟨by decide, by with_unfolding_all decide, by with_unfolding_all decide, rfl⟩,
   record_field_shapes (fun _ => "a page text about plumbing and heating work")
     (fun _ => .ok [⟨"Alpha", 1/2⟩, ⟨"Beta", 1/4⟩])
     (fun _ _ _ => .ok ⟨some "Pass", some "ok", some "act"⟩) "u"
     ⟨"Alpha", 1/2⟩ ["Beta"] ⟨some "Pass", some "ok", some "act"⟩
     (by decide) (by with_unfolding_all decide) (by with_unfolding_all decide) rfl⟩

/-- C10: `analyze_entities` is total over extraction outcomes — a raised
exception yields `(none, [])`, the same value as a successful extraction
with zero entities — and the batch loop therefore records the identical
No Entities Found degraded record in both situations. -/
theorem extract_error_like_empty (scrape : String → String)
    (auditCall : String → MainEntity → List String → Except String AuditDict)
    (url emsg : String)
    (hu : pyStrip url ≠ "")
    (hok : ¬(scrape (pyStrip url) = "" ∨ containsERROR (scrape (pyStrip url)) = true)) :
    analyze_entities (.error emsg) = (none, [])
    ∧ analyze_entities (.ok []) = (none, [])
    ∧ run_batch scrape (fun _ => .error emsg) auditCall [url] =
        [noEntitiesRecord (pyStrip url)]
    ∧ run_batch scrape (fun _ => .error emsg) auditCall [url] =
        run_batch scrape (fun _ => .ok []) auditCall [url]
    ∧ (noEntitiesRecord (pyStrip url)).status = some "No Entities Found" := by
  have h1 : run_batch scrape (fun _ => .error emsg) auditCall [url] =
      [noEntitiesRecord (pyStrip url)] := by
    rw [run_batch_cons_noent scrape (fun _ => .error emsg) auditCall url [] [] hu hok rfl]
    rfl
  have h2 : run_batch scrape (fun _ => .ok []) auditCall [url] =
      [noEntitiesRecord (pyStrip url)] := by
    rw [run_batch_cons_noent scrape (fun _ => .ok []) auditCall url [] [] hu hok rfl]
    rfl
  exact ⟨rfl, rfl, h1, h1.trans h2.symm, rfl⟩

/-- C10 witness: the theorem applied to a concrete item whose extraction
call raises with message nlp down. -/
theorem extract_error_like_empty_witness :
    (pyStrip "u" ≠ ""
      ∧ ¬((fun _ => "a readable page text") (pyStrip "u") = ("" : String)
          ∨ containsERROR ((fun _ => "a readable page text") (pyStrip "u")) = true))
    ∧ (analyze_entities (.error "nlp down") = ((none : Option MainEntity), ([] : List String))
      ∧ analyze_entities (.ok []) = ((none : Option MainEntity), ([] : List String))
      ∧ run_batch (fun _ => "a readable page text") (fun _ => .error "nlp down")
          (fun _ _ _ => .error "e") ["u"] = [noEntitiesRecord (pyStrip "u")]
      ∧ run_batch (fun _ => "a readable page text") (fun _ => .error "nlp down")
          (fun _ _ _ => .error "e") ["u"] =
        run_batch (fun _ => "a readable page text") (fun _ => .ok [])
          (fun _ _ _ => .error "e") ["u"]
      ∧ (noEntitiesRecord (pyStrip "u")).status = some "No Entities Found") :=
  ⟨⟨by decide, by decide⟩,
   extract_error_like_empty (fun _ => "a readable page text")
     (fun _ _ _ => .error "e") "u" "nlp down" (by decide) (by decide)⟩
